import Mathlib

/-!
Shallow embedding of the Campus Policy Assistant retrieval engine:
src/vectorstore.py (chunking, index construction, retriever selection),
src/llm.py (conversational chain), src/database.py (message store) and
src/app.py (the chat submission step).

External libraries are modelled as explicit parameters or as small
structures recording exactly the data the source manipulates:
the two text splitters appear as functions `String -> List String`,
KMeans cluster assignment as a function `Nat -> Nat` from sentence
position to cluster id, and a FAISS store as its chunk list plus an
opaque internal-state component that similarity queries may depend on
but chunk identity does not.
-/

/-- A langchain Document: the page text plus the source entry of its
metadata dict. `none` models a Document built with an empty metadata
dict, as `Document(page_content=...)` produces. -/
structure Doc where
  page_content : String
  source : Option String
deriving Repr, DecidableEq

/-- config.py: K_RETRIEVER = 5. -/
def K_RETRIEVER : Nat := 5

/-- config.py: SEMANTIC_N_CLUSTERS = 10. -/
def SEMANTIC_N_CLUSTERS : Nat := 10

/-- config.py: DEFAULT_CHUNKING_STRATEGY = "recursive". -/
def DEFAULT_CHUNKING_STRATEGY : String := "recursive"

/-- Models langchain TextSplitter.split_documents: split each document
text with the splitter and give every produced chunk the originating
document's metadata. The split function itself is the library parameter. -/
def split_documents (split_text : String → List String) (documents : List Doc) : List Doc :=
  documents.flatMap (fun d => (split_text d.page_content).map (fun t => { page_content := t, source := d.source }))

/-- vectorstore.py `_recursive_chunking`: RecursiveCharacterTextSplitter.split_documents,
the splitter passed as `rsplit`. -/
def _recursive_chunking (rsplit : String → List String) (documents : List Doc) : List Doc :=
  split_documents rsplit documents

/-- vectorstore.py `_fixed_size_chunking`: CharacterTextSplitter.split_documents,
the splitter passed as `fsplit`. -/
def _fixed_size_chunking (fsplit : String → List String) (documents : List Doc) : List Doc :=
  split_documents fsplit documents

/-- Models Python str.replace of the single character newline by a
space, on the character list of the text. -/
def replaceNewlines (cs : List Char) : List Char :=
  cs.map (fun c => if c = '\n' then ' ' else c)

/-- Models Python str.split on the two-character separator ". ":
greedy left-to-right scan emitting the piece accumulated (in reverse)
whenever the separator occurs, non-overlapping. -/
def splitDotSpace (acc : List Char) : List Char → List (List Char)
  | [] => [acc.reverse]
  | '.' :: ' ' :: rest => acc.reverse :: splitDotSpace [] rest
  | c :: rest => splitDotSpace (c :: acc) rest

/-- Models Python str.strip: drop whitespace from both ends. -/
def trimChars (cs : List Char) : List Char :=
  ((cs.dropWhile Char.isWhitespace).reverse.dropWhile Char.isWhitespace).reverse

/-- vectorstore.py `_semantic_chunking` lines 50-51: join all page contents
(newlines replaced by spaces) with ". ", split back on ". ", strip each
piece and keep the non-empty ones. -/
def sentencesOf (documents : List Doc) : List String :=
  let full_text := List.intercalate ['.', ' '] (documents.map (fun d => replaceNewlines d.page_content.toList))
  ((splitDotSpace [] full_text).map (fun s => String.mk (trimChars s))).filter (fun s => !(s == ""))

/-- vectorstore.py `_semantic_chunking`: `sklearn_available` models whether
`from sklearn.cluster import KMeans` succeeds; `labels` models
`kmeans.labels_`, the cluster id assigned to each sentence position
(the library guarantees values below SEMANTIC_N_CLUSTERS). Sentences are
grouped by cluster in original order, each non-empty group is joined with
". ", and each group becomes a Document with empty metadata. -/
def _semantic_chunking (sklearn_available : Bool) (rsplit : String → List String)
    (labels : Nat → Nat) (documents : List Doc) : List Doc :=
  if sklearn_available then
    let sentences := sentencesOf documents
    if sentences.isEmpty ∨ sentences.length < SEMANTIC_N_CLUSTERS then
      _recursive_chunking rsplit documents
    else
      let grouped := (List.range SEMANTIC_N_CLUSTERS).map
        (fun c => (sentences.enum.filter (fun p => labels p.1 == c)).map (fun p => p.2))
      let final_chunks_text := (grouped.filter (fun g => !g.isEmpty)).map (String.intercalate ". ")
      final_chunks_text.map (fun t => { page_content := t, source := none })
  else
    _recursive_chunking rsplit documents

/-- vectorstore.py `get_chunks`: dispatch on the strategy string; anything
other than "semantic" and "fixed_size" falls to recursive chunking. -/
def get_chunks (sklearn_available : Bool) (rsplit fsplit : String → List String)
    (labels : Nat → Nat) (documents : List Doc) (strategy : String) : List Doc :=
  if strategy = "semantic" then _semantic_chunking sklearn_available rsplit labels documents
  else if strategy = "fixed_size" then _fixed_size_chunking fsplit documents
  else _recursive_chunking rsplit documents

/-- A FAISS vector store: the docstore contents (the chunk list) plus an
opaque internal-state component standing for the embedding vectors and
nearest-neighbor structure, which chunk identity does not depend on. -/
structure Index where
  chunks : List Doc
  internals : Nat
deriving Repr, DecidableEq

/-- Models FAISS.from_documents: embedding an empty batch raises
(IndexError on `embeddings[0]`), otherwise the store holds exactly the
given chunks. -/
def FAISS_from_documents (internals : Nat) (chunks : List Doc) : Except String Index :=
  if chunks.isEmpty then Except.error "IndexError: list index out of range"
  else Except.ok { chunks := chunks, internals := internals }

/-- Models FAISS.from_texts: wraps each text in a metadata-free Document
and builds the store. -/
def FAISS_from_texts (internals : Nat) (texts : List String) : Except String Index :=
  FAISS_from_documents internals (texts.map (fun t => { page_content := t, source := none }))

/-- vectorstore.py line 104: the placeholder text inserted when no admin
documents exist. -/
def placeholder_text : String := "This is a placeholder document for an empty admin store."

/-- vectorstore.py `_load_or_create_admin_vectorstore`: return the
persisted store when one exists on disk; otherwise build from the admin
documents, inserting the placeholder when there are none. The default
chunking strategy is used for a fresh build. -/
def _load_or_create_admin_vectorstore (persisted : Option Index) (internals : Nat)
    (sklearn_available : Bool) (rsplit fsplit : String → List String)
    (labels : Nat → Nat) (admin_docs : List Doc) : Except String Index :=
  match persisted with
  | some idx => Except.ok idx
  | none =>
    if admin_docs.isEmpty then FAISS_from_texts internals [placeholder_text]
    else FAISS_from_documents internals
      (get_chunks sklearn_available rsplit fsplit labels admin_docs DEFAULT_CHUNKING_STRATEGY)

/-- Models Python path.endswith with the ".pdf" argument used by the
source, as a suffix test on the character list. -/
def endsWithPdf (p : String) : Bool :=
  List.isSuffixOf (String.toList ".pdf") p.toList

/-- vectorstore.py `create_user_vectorstore` lines 117-124: for each path
keep it only when it exists and ends in ".pdf", then try PyPDFLoader;
`load p = none` models a load exception, which is caught and skipped.
`ex` models `os.path.exists`. -/
def loaded_documents (ex : String → Bool) (load : String → Option (List Doc))
    (file_paths : List String) : List Doc :=
  file_paths.flatMap (fun p => if ex p && endsWithPdf p then (load p).getD [] else [])

/-- vectorstore.py `create_user_vectorstore`: `Except.ok none` models
returning None (empty path list, or no loadable documents);
`Except.error` models an uncaught exception from FAISS construction. -/
def create_user_vectorstore (internals : Nat) (ex : String → Bool)
    (load : String → Option (List Doc)) (sklearn_available : Bool)
    (rsplit fsplit : String → List String) (labels : Nat → Nat)
    (file_paths : List String) (chunking_strategy : String) : Except String (Option Index) :=
  if file_paths.isEmpty then Except.ok none
  else
    let documents := loaded_documents ex load file_paths
    if documents.isEmpty then Except.ok none
    else (FAISS_from_documents internals
      (get_chunks sklearn_available rsplit fsplit labels documents chunking_strategy)).map some

/-- Projection of a store to its `(source_id, text)` chunk pairs, the
identity the spec compares indices by. -/
def indexChunkPairs (idx : Index) : List (Option String × String) :=
  idx.chunks.map (fun c => (c.source, c.page_content))

/-- The retriever objects `get_retriever` can return: a vector-store
retriever with its search type and k, a BM25 retriever over a document
snapshot, or an EnsembleRetriever over two retrievers with their weights
(the source always passes exactly two). -/
inductive Retriever where
  | vector (store : List Doc) (search_type : String) (k : Nat)
  | bm25 (docs : List Doc) (k : Nat)
  | ensemble (r1 r2 : Retriever) (w1 w2 : Rat)
deriving Repr, DecidableEq

/-- vectorstore.py `get_retriever` lines 132-168, together with the list
of diagnostics the call prints (this function prints nothing, so the log
component is always empty). `admin_store` is the admin docstore's chunk
list and `user_vs` the optional user store's. -/
def get_retriever (admin_store : List Doc) (user_vs : Option (List Doc))
    (search_type : String) : Retriever × List String :=
  let admin_retriever := Retriever.vector admin_store "similarity" K_RETRIEVER
  let all_docs := admin_store ++ (match user_vs with | some u => u | none => [])
  match user_vs with
  | none =>
    if search_type = "hybrid" ∧ 1 < all_docs.length then
      (Retriever.ensemble admin_retriever (Retriever.bm25 all_docs K_RETRIEVER) (1/2) (1/2), [])
    else if search_type = "mmr" then
      (Retriever.vector admin_store "mmr" K_RETRIEVER, [])
    else
      (admin_retriever, [])
  | some u =>
    if search_type = "hybrid" ∧ 1 < all_docs.length then
      (Retriever.ensemble (Retriever.vector all_docs "similarity" K_RETRIEVER)
        (Retriever.bm25 all_docs K_RETRIEVER) (1/2) (1/2), [])
    else
      (Retriever.ensemble admin_retriever (Retriever.vector u "similarity" K_RETRIEVER) (1/2) (1/2), [])

/-- Insertion step for the similarity ranking. -/
def insertRanked (le : Doc → Doc → Bool) (d : Doc) : List Doc → List Doc
  | [] => [d]
  | x :: xs => if le d x then d :: x :: xs else x :: insertRanked le d xs

/-- Insertion sort for the similarity ranking. -/
def sortRanked (le : Doc → Doc → Bool) : List Doc → List Doc
  | [] => []
  | x :: xs => insertRanked le x (sortRanked le xs)

/-- Models a FAISS similarity search: rank the stored chunks by a score
the embedding model assigns to the query-chunk pair, best first, and
take the top k. -/
def similarity_search (score : String → Doc → Nat) (store : List Doc)
    (q : String) (k : Nat) : List Doc :=
  (sortRanked (fun a b => score q b ≤ score q a) store).take k

/-- A row of the messages table: database.py `add_message` stores
(chat_id, role, content); get_chat_history returns rows ordered by the
autoincremented id, so the store is modelled as the append-ordered list. -/
structure Message where
  chat_id : Nat
  role : String
  content : String
deriving Repr, DecidableEq

/-- database.py `add_message`: INSERT appends one committed row. -/
def add_message (db : List Message) (chat_id : Nat) (role content : String) : List Message :=
  db ++ [{ chat_id := chat_id, role := role, content := content }]

/-- app.py `_show_main_app` lines 169-181, the chat submission step:
commit the human message, run the RAG chain (its outcome modelled as
Except: an ok answer, or a raised service error that propagates), and
commit the ai message only on success. Returns the message store after
the request. -/
def _show_main_app_submit (gen : Except String String) (db : List Message)
    (chat_id : Nat) (user_query : String) : List Message :=
  let db1 := add_message db chat_id "human" user_query
  match gen with
  | Except.ok answer => add_message db1 chat_id "ai" answer
  | Except.error _ => db1

/-- One turn of chat history, as passed to the conversational chain. -/
structure ChatTurn where
  role : String
  content : String
deriving Repr, DecidableEq

/-- Models the branching of langchain create_history_aware_retriever as
called at llm.py lines 37-39: with an empty chat history the raw input is
used as the standalone query directly; otherwise the generation model
rewrites it against the history. -/
def contextualize (llm_rewrite : List ChatTurn → String → String)
    (chat_history : List ChatTurn) (input : String) : String :=
  if chat_history.isEmpty then input else llm_rewrite chat_history input

/-- The identity splitter, a concrete stand-in for a library text
splitter in witnesses. -/
def idSplit : String → List String := fun s => [s]

/-- A concrete three-sentence corpus for the semantic-fallback witness. -/
def docs3 : List Doc := [{ page_content := "a. b. c", source := some "handbook.pdf" }]

/-- A concrete ten-sentence corpus that takes the full semantic
clustering path. -/
def docs10 : List Doc := [{ page_content := "a. b. c. d. e. f. g. h. i. j", source := some "policies.pdf" }]

/-- A concrete cluster assignment staying below SEMANTIC_N_CLUSTERS. -/
def labelsMod : Nat → Nat := fun i => i % SEMANTIC_N_CLUSTERS

/-- A concrete chunk for retriever witnesses. -/
def doc0 : Doc := { page_content := "Room changes require a written request.", source := some "rooms.pdf" }

/-- A second concrete chunk for retriever witnesses. -/
def doc1 : Doc := { page_content := "Maintenance requests are filed online.", source := some "maint.pdf" }

/-- Fallback equality at the core of semantic chunking: when sklearn is
unavailable or the corpus yields fewer sentences than clusters, the
semantic chunker returns exactly the recursive chunker's output. -/
theorem semantic_fallback_eq (sklearn_available : Bool) (rsplit : String → List String)
    (labels : Nat → Nat) (documents : List Doc)
    (h : sklearn_available = false ∨ (sentencesOf documents).length < SEMANTIC_N_CLUSTERS) :
    _semantic_chunking sklearn_available rsplit labels documents = _recursive_chunking rsplit documents := by
  rcases h with h | h
  · subst h
    rfl
  · cases sklearn_available with
    | false => rfl
    | true =>
      unfold _semantic_chunking
      simp only [if_true]
      rw [if_pos (Or.inr h)]

/-- Chunks produced through split_documents carry the metadata of the
document they were split from. -/
theorem split_documents_source (split_text : String → List String) (documents : List Doc) :
    ∀ c ∈ split_documents split_text documents, ∃ d ∈ documents, c.source = d.source := by
  intro c hc
  simp only [split_documents, List.mem_flatMap, List.mem_map] at hc
  obtain ⟨d, hd, t, _, rfl⟩ := hc
  exact ⟨d, hd, rfl⟩

/-- Chunks produced by the full semantic clustering path carry no source
metadata at all. -/
theorem semantic_full_path_source_none (rsplit : String → List String)
    (labels : Nat → Nat) (documents : List Doc)
    (h10 : SEMANTIC_N_CLUSTERS ≤ (sentencesOf documents).length) :
    ∀ c ∈ _semantic_chunking true rsplit labels documents, c.source = none := by
  intro c hc
  unfold _semantic_chunking at hc
  rw [if_pos rfl] at hc
  rw [if_neg] at hc
  · simp only [List.mem_map] at hc
    obtain ⟨t, _, rfl⟩ := hc
    rfl
  · rintro (hemp | hlt)
    · have hz : (sentencesOf documents).length = 0 := by
        simpa [List.isEmpty_iff_length_eq_zero] using hemp
      have hpos : 0 < SEMANTIC_N_CLUSTERS := by decide
      omega
    · omega

/-- C4: for every document list whose corpus yields fewer sentences than
SEMANTIC_N_CLUSTERS (config value 10), or when the clustering library is
unavailable, semantic chunking returns exactly the output of recursive
chunking on the same documents; being a total function, it raises no
error. -/
theorem C4_semantic_fallback_to_recursive (sklearn_available : Bool)
    (rsplit : String → List String) (labels : Nat → Nat) (documents : List Doc)
    (h : sklearn_available = false ∨ (sentencesOf documents).length < SEMANTIC_N_CLUSTERS) :
    _semantic_chunking sklearn_available rsplit labels documents
      = _recursive_chunking rsplit documents :=
  semantic_fallback_eq sklearn_available rsplit labels documents h

/-- C4 witness: a three-sentence corpus with ten target clusters falls
back to recursive chunking. -/
theorem C4_semantic_fallback_witness :
    (sentencesOf docs3).length < SEMANTIC_N_CLUSTERS ∧
      _semantic_chunking true idSplit labelsMod docs3 = _recursive_chunking idSplit docs3 :=
  ⟨by decide, C4_semantic_fallback_to_recursive true idSplit labelsMod docs3 (Or.inr (by decide))⟩

/-- C5 counterexample: on a one-document corpus whose ten sentences take
the full semantic clustering path, the produced chunks do not carry the
source of the document they originated from (their metadata is empty),
so the claim that every chunk of every strategy carries its originating
source_id fails at this concrete input. -/
theorem C5_counterexample :
    ¬ (∀ c ∈ get_chunks true idSplit idSplit labelsMod docs10 "semantic",
        ∃ d ∈ docs10, c.source = d.source) := by
  decide

/-- C5 amended: chunks produced by the recursive and fixed_size
strategies (and by semantic chunking when it falls back to recursive
chunking) carry the source of the document they originated from; chunks
produced by the full semantic clustering path carry no source metadata
at all. -/
theorem C5_chunk_source_amended (sklearn_available : Bool)
    (rsplit fsplit : String → List String) (labels : Nat → Nat)
    (documents : List Doc) (strategy : String) :
    (strategy ≠ "semantic" →
      ∀ c ∈ get_chunks sklearn_available rsplit fsplit labels documents strategy,
        ∃ d ∈ documents, c.source = d.source) ∧
    ((sklearn_available = false ∨ (sentencesOf documents).length < SEMANTIC_N_CLUSTERS) →
      ∀ c ∈ get_chunks sklearn_available rsplit fsplit labels documents "semantic",
        ∃ d ∈ documents, c.source = d.source) ∧
    (sklearn_available = true → SEMANTIC_N_CLUSTERS ≤ (sentencesOf documents).length →
      ∀ c ∈ get_chunks sklearn_available rsplit fsplit labels documents "semantic",
        c.source = none) := by
  refine ⟨?_, ?_, ?_⟩
  · intro hs c hc
    unfold get_chunks at hc
    rw [if_neg hs] at hc
    by_cases hf : strategy = "fixed_size"
    · rw [if_pos hf] at hc
      exact split_documents_source fsplit documents c hc
    · rw [if_neg hf] at hc
      exact split_documents_source rsplit documents c hc
  · intro h c hc
    unfold get_chunks at hc
    rw [if_pos rfl, semantic_fallback_eq sklearn_available rsplit labels documents h] at hc
    exact split_documents_source rsplit documents c hc
  · intro hsk h10 c hc
    unfold get_chunks at hc
    rw [if_pos rfl, hsk] at hc
    exact semantic_full_path_source_none rsplit labels documents h10 c hc

/-- C5 witness: on concrete corpora, recursive chunks keep their source
and full-semantic-path chunks have none. -/
theorem C5_chunk_source_amended_witness :
    (∀ c ∈ get_chunks true idSplit idSplit labelsMod docs10 "recursive",
      ∃ d ∈ docs10, c.source = d.source) ∧
    (∀ c ∈ get_chunks true idSplit idSplit labelsMod docs3 "semantic",
      ∃ d ∈ docs3, c.source = d.source) ∧
    (∀ c ∈ get_chunks true idSplit idSplit labelsMod docs10 "semantic",
      c.source = none) :=
  ⟨(C5_chunk_source_amended true idSplit idSplit labelsMod docs10 "recursive").1 (by decide),
   (C5_chunk_source_amended true idSplit idSplit labelsMod docs3 "semantic").2.1 (Or.inr (by decide)),
   (C5_chunk_source_amended true idSplit idSplit labelsMod docs10 "semantic").2.2 rfl (by decide)⟩

/-- C8: with an empty chat history the contextualization stage produces a
standalone query equal to the raw query, whatever rewrite function the
generation model would implement (so the model is never consulted). -/
theorem C8_empty_history_no_rewrite :
    ∀ (llm_rewrite : List ChatTurn → String → String) (q : String),
      contextualize llm_rewrite [] q = q :=
  fun _ _ => rfl

/-- C1 counterexample: with an empty prior history, a request whose
generation step raises a service error leaves the message store changed
(the human message was committed before the generation call), refuting
the claim that the store is left unchanged. -/
theorem C1_counterexample :
    _show_main_app_submit (Except.error "GenerationServiceUnavailable") [] 1 "How do I change my room?"
      ≠ ([] : List Message) := by
  decide

/-- C1 amended: when the generation (or retrieval) step fails with a
service error, the message store is left with exactly the user's query
committed as a human message and no answer message; the store therefore
differs from the prior history, and an identical retried request
observes a history extended by the failed query. -/
theorem C1_failed_request_commits_query (gen_error : String) (db : List Message)
    (chat_id : Nat) (user_query : String) :
    _show_main_app_submit (Except.error gen_error) db chat_id user_query
        = add_message db chat_id "human" user_query ∧
      _show_main_app_submit (Except.error gen_error) db chat_id user_query ≠ db := by
  refine ⟨rfl, ?_⟩
  intro h
  have hlen := congrArg List.length h
  simp [_show_main_app_submit, add_message] at hlen

/-- A successful FAISS construction never yields a store with an empty
chunk list. -/
theorem FAISS_from_documents_ok_pos (internals : Nat) (chunks : List Doc) (idx : Index)
    (h : FAISS_from_documents internals chunks = Except.ok idx) : 0 < idx.chunks.length := by
  unfold FAISS_from_documents at h
  by_cases he : chunks.isEmpty
  · rw [if_pos he] at h
    cases h
  · rw [if_neg he] at h
    injection h with h2
    subst h2
    show 0 < chunks.length
    simp only [List.isEmpty_iff_length_eq_zero] at he
    omega

/-- C2: with a user index present, hybrid mode over a combined corpus of
more than one chunk builds an equal-weight (0.5/0.5) ensemble of a
vector retriever over the union of the admin and user chunks and a BM25
lexical retriever over that same union, printing nothing. -/
theorem C2_hybrid_user_union_fusion (admin_store u : List Doc)
    (h : 1 < (admin_store ++ u).length) :
    get_retriever admin_store (some u) "hybrid" =
      (Retriever.ensemble (Retriever.vector (admin_store ++ u) "similarity" K_RETRIEVER)
        (Retriever.bm25 (admin_store ++ u) K_RETRIEVER) (1/2) (1/2), []) := by
  simp only [get_retriever]
  rw [if_pos ⟨trivial, h⟩]

/-- C2 witness: two one-chunk stores give a combined corpus of two
chunks, fused at equal weight over their union. -/
theorem C2_hybrid_user_union_fusion_witness :
    1 < ([doc0] ++ [doc1]).length ∧
      get_retriever [doc0] (some [doc1]) "hybrid" =
        (Retriever.ensemble (Retriever.vector ([doc0] ++ [doc1]) "similarity" K_RETRIEVER)
          (Retriever.bm25 ([doc0] ++ [doc1]) K_RETRIEVER) (1/2) (1/2), []) :=
  ⟨by decide, C2_hybrid_user_union_fusion [doc0] [doc1] (by decide)⟩

/-- C3 counterexample: hybrid retrieval over a one-chunk corpus with no
user index does fall back to the admin similarity retriever, but the
call prints no diagnostic at all (its log output is empty), refuting the
claim's conjunct that a diagnostic is logged. -/
theorem C3_counterexample :
    (get_retriever [doc0] none "hybrid").1 = Retriever.vector [doc0] "similarity" K_RETRIEVER ∧
      (get_retriever [doc0] none "hybrid").2 = [] := by
  constructor <;> rfl

/-- C3 amended: in hybrid mode over a corpus of at most one chunk with no
user index, no lexical index is constructed and retrieval falls back to
the admin similarity retriever, which returns the single chunk when the
store holds exactly one; however the fallback is silent, with no
diagnostic logged. Being a total function, no error is raised. -/
theorem C3_degenerate_hybrid_silent_fallback (store : List Doc)
    (score : String → Doc → Nat) (q : String) (h : store.length ≤ 1) :
    get_retriever store none "hybrid" = (Retriever.vector store "similarity" K_RETRIEVER, []) ∧
      ∀ d, store = [d] → similarity_search score store q K_RETRIEVER = [d] := by
  constructor
  · have hnot : ¬ (True ∧ 1 < (store ++ ([] : List Doc)).length) := by
      rintro ⟨-, hlen⟩
      simp only [List.append_nil] at hlen
      omega
    simp only [get_retriever]
    rw [if_neg hnot, if_neg (by decide : ¬ (("hybrid" : String) = "mmr"))]
  · rintro d rfl
    rfl

/-- C3 witness: the singleton corpus under hybrid mode yields the admin
similarity retriever with an empty log, and similarity search returns
the single chunk. -/
theorem C3_degenerate_hybrid_silent_fallback_witness :
    ([doc0] : List Doc).length ≤ 1 ∧
      get_retriever [doc0] none "hybrid" = (Retriever.vector [doc0] "similarity" K_RETRIEVER, []) ∧
      similarity_search (fun _ _ => 0) [doc0] "How do I change my room?" K_RETRIEVER = [doc0] :=
  ⟨by decide,
   (C3_degenerate_hybrid_silent_fallback [doc0] (fun _ _ => 0) "How do I change my room?" (by decide)).1,
   (C3_degenerate_hybrid_silent_fallback [doc0] (fun _ _ => 0) "How do I change my room?" (by decide)).2 doc0 rfl⟩

/-- C6: on a fresh build (no persisted store), an empty admin document
set yields a store holding exactly the single placeholder chunk, and
every successfully constructed admin store holds at least one entry. -/
theorem C6_admin_index_nonempty (internals : Nat) (sklearn_available : Bool)
    (rsplit fsplit : String → List String) (labels : Nat → Nat) (admin_docs : List Doc) :
    (admin_docs = [] →
      _load_or_create_admin_vectorstore none internals sklearn_available rsplit fsplit labels admin_docs
        = Except.ok { chunks := [{ page_content := placeholder_text, source := none }], internals := internals }) ∧
    (∀ idx, _load_or_create_admin_vectorstore none internals sklearn_available rsplit fsplit labels admin_docs
        = Except.ok idx → 0 < idx.chunks.length) := by
  constructor
  · rintro rfl
    rfl
  · intro idx h
    unfold _load_or_create_admin_vectorstore at h
    by_cases he : admin_docs.isEmpty
    · rw [if_pos he] at h
      exact FAISS_from_documents_ok_pos internals _ idx h
    · rw [if_neg he] at h
      exact FAISS_from_documents_ok_pos internals _ idx h

/-- C6 witness: building with an empty admin document set produces the
one-entry placeholder store. -/
theorem C6_admin_index_nonempty_witness :
    _load_or_create_admin_vectorstore none 0 true idSplit idSplit labelsMod []
        = Except.ok { chunks := [{ page_content := placeholder_text, source := none }], internals := 0 } ∧
      0 < (Index.chunks { chunks := [{ page_content := placeholder_text, source := none }], internals := 0 }).length :=
  ⟨(C6_admin_index_nonempty 0 true idSplit idSplit labelsMod []).1 rfl,
   (C6_admin_index_nonempty 0 true idSplit idSplit labelsMod []).2 _
     ((C6_admin_index_nonempty 0 true idSplit idSplit labelsMod []).1 rfl)⟩

/-- C7: with no user index, similarity mode returns exactly the admin
store's similarity retriever and mmr mode exactly the admin store's
max-marginal-relevance retriever, with no fusion and no log output. -/
theorem C7_no_user_passthrough (admin_store : List Doc) :
    get_retriever admin_store none "similarity"
        = (Retriever.vector admin_store "similarity" K_RETRIEVER, []) ∧
      get_retriever admin_store none "mmr"
        = (Retriever.vector admin_store "mmr" K_RETRIEVER, []) := by
  constructor
  · simp only [get_retriever]
    rw [if_neg (fun hc => absurd hc.1 (by decide)),
      if_neg (by decide : ¬ (("similarity" : String) = "mmr"))]
  · simp only [get_retriever]
    rw [if_neg (fun hc => absurd hc.1 (by decide)), if_pos trivial]

/-- C9: building the user vector store twice on the same file set and
strategy yields stores with identical `(source_id, text)` chunk sets,
whatever the internal state component of each build. -/
theorem C9_user_index_chunkset_deterministic (internals1 internals2 : Nat)
    (ex : String → Bool) (load : String → Option (List Doc)) (sklearn_available : Bool)
    (rsplit fsplit : String → List String) (labels : Nat → Nat)
    (file_paths : List String) (chunking_strategy : String) :
    (create_user_vectorstore internals1 ex load sklearn_available rsplit fsplit labels
        file_paths chunking_strategy).map (Option.map indexChunkPairs)
      = (create_user_vectorstore internals2 ex load sklearn_available rsplit fsplit labels
        file_paths chunking_strategy).map (Option.map indexChunkPairs) := by
  simp only [create_user_vectorstore, FAISS_from_documents, indexChunkPairs]
  split_ifs <;> rfl

/-- C10: building the user vector store returns None both when the file
path list is empty and whenever the path list yields no loadable
documents (every path missing, not a .pdf, or failing extraction); no
store and no placeholder entry is created. -/
theorem C10_user_index_none_on_no_documents (internals : Nat) (ex : String → Bool)
    (load : String → Option (List Doc)) (sklearn_available : Bool)
    (rsplit fsplit : String → List String) (labels : Nat → Nat)
    (file_paths : List String) (chunking_strategy : String) :
    (file_paths = [] →
      create_user_vectorstore internals ex load sklearn_available rsplit fsplit labels
        file_paths chunking_strategy = Except.ok none) ∧
    (loaded_documents ex load file_paths = [] →
      create_user_vectorstore internals ex load sklearn_available rsplit fsplit labels
        file_paths chunking_strategy = Except.ok none) := by
  constructor
  · rintro rfl
    rfl
  · intro h
    simp only [create_user_vectorstore]
    split_ifs with h1 h2
    · rfl
    · rfl
    · exact absurd (by simp [h]) h2

/-- A concrete exists-check accepting every path, for the C10 witness. -/
def exAll : String → Bool := fun _ => true

/-- C10 witness: a non-empty path list whose only entry is not a .pdf
yields no documents and the build returns None. -/
theorem C10_user_index_none_witness :
    loaded_documents exAll (fun _ => some [doc0]) ["notes.txt"] = [] ∧
      create_user_vectorstore 0 exAll (fun _ => some [doc0]) true idSplit idSplit labelsMod
        ["notes.txt"] "recursive" = Except.ok none :=
  ⟨by decide,
   (C10_user_index_none_on_no_documents 0 exAll (fun _ => some [doc0]) true idSplit idSplit
     labelsMod ["notes.txt"] "recursive").2 (by decide)⟩
